import Mathlib

/-!
Verification of the consolidated serverless request handlers and client
cache-layer configuration of a recipe-discovery web application.

The development shallowly embeds, in Lean:
  * the food/wine catch-all handler (`api/food/wine/[...action].ts`),
  * the recipe-detail catch-all handler
    (`api/recipes/[recipeId]/[...action].ts`),
  * the JavaScript helpers they rely on (`parseFloat`, `parseInt` base 10,
    `String.prototype.includes`, the `/^\d+$/` test, truthiness of optional
    query parameters),
  * the React Query configuration objects (query-client defaults and the
    per-hook query options), and
  * the `capitalizeWords` string utility.

Upstream SDK calls (`getWinePairing`, `getRecipeInformation`, ...) are
modelled as an oracle mapping each call description to either a returned
value or a thrown error message; each handler returns its HTTP response
together with the list of upstream calls it performed.
-/

namespace RecipeApp

/-- Substring test on character lists: does the first list occur as a
prefix of the second?  Mirrors the left-to-right comparison that
`String.prototype.includes` performs at each candidate position. -/
def startsWithChars : List Char → List Char → Bool
  | [], _ => true
  | _ :: _, [] => false
  | a :: as, b :: bs => a == b && startsWithChars as bs

/-- Does `needle` occur contiguously inside `hay`?  Character-list core of
the JavaScript `String.prototype.includes` test used by both handlers'
catch blocks. -/
def occursInChars (needle : List Char) : List Char → Bool
  | [] => needle.isEmpty
  | c :: cs => startsWithChars needle (c :: cs) || occursInChars needle cs

/-- JavaScript `haystack.includes(needle)` for strings. -/
def occursIn (needle hay : String) : Bool :=
  occursInChars needle.toList hay.toList

/-- The `/^\d+$/` test of the recipe-detail handler: non-empty and every
character an ASCII digit. -/
def isDigitString (s : String) : Bool :=
  !s.isEmpty && s.toList.all Char.isDigit

/-- Value of a JavaScript number as produced by `parseFloat`: `NaN`,
a signed infinity, or a finite value, represented exactly as the rational
`num / den` with `den` a positive power of ten (the claims under study
depend only on sign and NaN-ness, never on float rounding). -/
inductive JsFloat where
  | nan
  | inf (neg : Bool)
  | finite (num : Int) (den : Nat)
deriving DecidableEq, Repr

/-- `isNaN(x)` on a parsed number. -/
def jsIsNaN : JsFloat → Bool
  | .nan => true
  | _ => false

/-- `x < 0` on a parsed number (`NaN < 0` is `false` in JavaScript; a
finite `num / den` with positive `den` is negative exactly when `num`
is). -/
def jsLtZero : JsFloat → Bool
  | .nan => false
  | .inf neg => neg
  | .finite num _ => decide (num < 0)

/-- Numeric value of a run of ASCII digits, most significant first. -/
def digitsToNat (ds : List Char) : Nat :=
  ds.foldl (fun a c => a * 10 + (c.toNat - 48)) 0

/-- Strip an optional leading sign, returning `true` when it was `-`. -/
def stripSign : List Char → Bool × List Char
  | '-' :: r => (true, r)
  | '+' :: r => (false, r)
  | r => (false, r)

/-- JavaScript `parseInt(s, 10)`: skip leading whitespace, read an optional
sign and then the longest run of decimal digits; `none` (NaN) when no digit
follows, otherwise the signed value; trailing characters are ignored. -/
def parseIntJS (s : String) : Option Int :=
  let cs := s.toList.dropWhile Char.isWhitespace
  let (neg, cs1) := stripSign cs
  let ds := cs1.takeWhile Char.isDigit
  if ds.isEmpty then none
  else some (if neg then -(digitsToNat ds : Int) else (digitsToNat ds : Int))

/-- Exponent part of a JavaScript float literal: an optional `e`/`E`
followed by an optional sign and digits; an `e` with no digits after it is
ignored, as `parseFloat` does. -/
def parseExpJS : List Char → Int
  | 'e' :: r => parseExpJS.signedDigits r
  | 'E' :: r => parseExpJS.signedDigits r
  | _ => 0
where
  signedDigits (r : List Char) : Int :=
    let (neg, r2) := stripSign r
    let eds := r2.takeWhile Char.isDigit
    if eds.isEmpty then 0
    else if neg then -(digitsToNat eds : Int) else (digitsToNat eds : Int)

/-- JavaScript `parseFloat(s)`: skip leading whitespace, read an optional
sign, then either `Infinity` or a decimal mantissa (`digits`, `.digits`,
`digits.digits`) with an optional exponent; `NaN` when no mantissa digit is
present; trailing characters are ignored. -/
def parseFloatJS (s : String) : JsFloat :=
  let cs := s.toList.dropWhile Char.isWhitespace
  let (neg, cs1) := stripSign cs
  if startsWithChars "Infinity".toList cs1 then .inf neg
  else
    let intDs := cs1.takeWhile Char.isDigit
    let rest1 := cs1.dropWhile Char.isDigit
    let fracDs := match rest1 with
      | '.' :: r => r.takeWhile Char.isDigit
      | _ => []
    let rest2 := match rest1 with
      | '.' :: r => r.dropWhile Char.isDigit
      | r => r
    if intDs.isEmpty && fracDs.isEmpty then .nan
    else
      let mant : Nat :=
        digitsToNat intDs * 10 ^ fracDs.length + digitsToNat fracDs
      let num : Int := if neg then -(mant : Int) else (mant : Int)
      let e : Int := parseExpJS rest2
      if 0 ≤ e then .finite (num * 10 ^ e.toNat) (10 ^ fracDs.length)
      else .finite num (10 ^ fracDs.length * 10 ^ (-e).toNat)

/-- JavaScript `String.prototype.trim`: drop whitespace from both ends
(defined structurally over the character list so that it computes by
kernel reduction). -/
def jsTrim (s : String) : String :=
  ⟨((s.toList.dropWhile Char.isWhitespace).reverse.dropWhile
      Char.isWhitespace).reverse⟩

/-- Outcome of one wrapped upstream SDK call: a returned value or a thrown
error whose message is recorded (the handlers read `error.message`). -/
inductive UpstreamResult (α : Type) where
  | ok (v : α)
  | thrown (msg : String)
deriving DecidableEq, Repr

/-- Body of an HTTP response produced by a handler: a `{ error }` object,
a `{ error, message }` object, a `200` payload, or the empty body of the
CORS-preflight reply. -/
inductive RespBody (α : Type) where
  | errObj (error : String)
  | errMsgObj (error : String) (message : String)
  | ok (v : α)
  | empty
deriving DecidableEq, Repr

/-- An HTTP response: status code and JSON body. -/
structure Response (α : Type) where
  status : Nat
  body : RespBody α
deriving DecidableEq, Repr

/-- Routing decision of a handler before any upstream work: an immediate
reply, or a single upstream call to perform inside the `try` block. -/
inductive Routed (κ α : Type) where
  | reply (r : Response α)
  | call (c : κ)

/-- Run the one upstream call of a handler's `try` block under its
`catch`: a thrown error is mapped to status `402` when its message
contains `"limit"` or `"402"` and to `500` otherwise, with a
`{ error, message }` body carrying the handler's fixed error label and the
thrown message.  The second component records the upstream call made. -/
def runCall {κ α : Type} (errLabel : String) (c : κ)
    (up : κ → UpstreamResult α) : Response α × List κ :=
  match up c with
  | .ok v => (⟨200, .ok v⟩, [c])
  | .thrown msg =>
      (⟨if occursIn "limit" msg || occursIn "402" msg then 402 else 500,
        .errMsgObj errLabel msg⟩, [c])

/-! ## Food/wine handler (`api/food/wine/[...action].ts`) -/

/-- Query parameters of a request to the food/wine handler; `action` is the
catch-all path segment list, the rest are optional string parameters. -/
structure WineQuery where
  action : Option (List String)
  wine : Option String
  food : Option String
  maxPrice : Option String
deriving DecidableEq, Repr

/-- A request to the food/wine handler. -/
structure WineRequest where
  method : String
  query : WineQuery
deriving DecidableEq, Repr

/-- The upstream SDK calls the food/wine handler can make. -/
inductive WineCall where
  | dishPairing (wine : String)
  | winePairing (food : String) (maxPrice : Option JsFloat)
deriving DecidableEq, Repr

/-- `maxPrice` resolution in the pairing branch: the JavaScript ternary
`request.query.maxPrice ? parseFloat(...) : undefined`, in which both an
absent parameter and the (falsy) empty string yield `undefined`. -/
def resolveMaxPrice : Option String → Option JsFloat
  | none => none
  | some s => if s = "" then none else some (parseFloatJS s)

/-- Modelled from the spec: `handleCorsPreflight` lives in
`lib/api-utils.js`, which is not part of the sources under study; the
standard Vercel pattern it names answers an `OPTIONS` request immediately
with status 200 and an empty body and lets every other request through.
Both handlers are modelled with that behaviour.  `setCorsHeaders` only
adds headers and is not modelled. -/
def isPreflight (method : String) : Bool :=
  method == "OPTIONS"

/-- Routing logic of the food/wine catch-all handler, following the source
order: CORS preflight, method check, then dispatch on `action[0]` with the
`dishes` and `pairing` parameter validation. -/
def wineRoute {α : Type} (req : WineRequest) : Routed WineCall α :=
  if isPreflight req.method then .reply ⟨200, .empty⟩
  else if req.method ≠ "GET" then .reply ⟨405, .errObj "Method not allowed"⟩
  else
    let action := (req.query.action.getD []).head?
    if action = some "dishes" then
      match req.query.wine with
      | none => .reply ⟨400, .errObj "Wine type is required"⟩
      | some w =>
          if jsTrim w = "" then .reply ⟨400, .errObj "Wine type is required"⟩
          else .call (.dishPairing w)
    else if action = some "pairing" then
      let maxPrice := resolveMaxPrice req.query.maxPrice
      match req.query.food with
      | none => .reply ⟨400, .errObj "Food name is required"⟩
      | some f =>
          if jsTrim f = "" then .reply ⟨400, .errObj "Food name is required"⟩
          else
            match maxPrice with
            | some v =>
                if jsIsNaN v || jsLtZero v then
                  .reply ⟨400, .errObj "maxPrice must be a positive number"⟩
                else .call (.winePairing f (some v))
            | none => .call (.winePairing f none)
    else .reply ⟨404, .errObj "Not found"⟩

/-- The food/wine catch-all handler: route, then run the selected upstream
call (if any) under the handler's `catch` block.  Returns the response and
the list of upstream calls performed. -/
def wineHandler {α : Type} (req : WineRequest)
    (up : WineCall → UpstreamResult α) : Response α × List WineCall :=
  match wineRoute (α := α) req with
  | .reply r => (r, [])
  | .call c => runCall "Failed to process request" c up

/-! ## Recipe-detail handler (`api/recipes/[recipeId]/[...action].ts`) -/

/-- Query parameters of a request to the recipe-detail handler. -/
structure RecipeQuery where
  recipeId : Option String
  action : Option (List String)
  includeNutrition : Option String
  addWinePairing : Option String
  addTasteData : Option String
  number : Option String
deriving DecidableEq, Repr

/-- A request to the recipe-detail handler. -/
structure RecipeRequest where
  method : String
  query : RecipeQuery
deriving DecidableEq, Repr

/-- The upstream SDK calls the recipe-detail handler can make. -/
inductive RecipeCall where
  | information (recipeId : String)
      (includeNutrition addWinePairing addTasteData : Bool)
  | similar (recipeId : String) (number : Int)
  | summary (recipeId : String)
deriving DecidableEq, Repr

/-- `number` resolution in the similar branch: the JavaScript ternary
`request.query.number ? parseInt(..., 10) : 10`, in which both an absent
parameter and the (falsy) empty string yield the default 10; `none` here
is `parseInt` returning `NaN`. -/
def resolveNumber : Option String → Option Int
  | none => some 10
  | some s => if s = "" then some 10 else parseIntJS s

/-- Routing logic of the recipe-detail catch-all handler, following the
source order: CORS preflight, `recipeId` extraction (`|| ""`) and the
`/^\d+$/` validation, then the method check, then dispatch on `action[0]`
for `information`, `similar` (with its `number` range check) and
`summary`. -/
def recipeRoute {α : Type} (req : RecipeRequest) : Routed RecipeCall α :=
  if isPreflight req.method then .reply ⟨200, .empty⟩
  else
    let recipeId := req.query.recipeId.getD ""
    if isDigitString recipeId then
      let action := (req.query.action.getD []).head?
      if req.method ≠ "GET" then .reply ⟨405, .errObj "Method not allowed"⟩
      else if action = some "information" then
        .call (.information recipeId
          (req.query.includeNutrition == some "true")
          (req.query.addWinePairing == some "true")
          (req.query.addTasteData == some "true"))
      else if action = some "similar" then
        match resolveNumber req.query.number with
        | none => .reply ⟨400, .errObj "Number must be between 1 and 100"⟩
        | some n =>
            if n < 1 || n > 100 then
              .reply ⟨400, .errObj "Number must be between 1 and 100"⟩
            else .call (.similar recipeId n)
      else if action = some "summary" then .call (.summary recipeId)
      else .reply ⟨404, .errObj "Not found"⟩
    else .reply ⟨400, .errObj "Valid recipe ID is required"⟩

/-- The recipe-detail catch-all handler: route, then run the selected
upstream call (if any) under the handler's `catch` block. -/
def recipeHandler {α : Type} (req : RecipeRequest)
    (up : RecipeCall → UpstreamResult α) : Response α × List RecipeCall :=
  match recipeRoute (α := α) req with
  | .reply r => (r, [])
  | .call c => runCall "Failed to fetch recipe data" c up

/-! ## Client cache-layer configuration (React Query) -/

/-- A `staleTime`/cache-duration value: a finite number of milliseconds or
JavaScript `Infinity`. -/
inductive JsDuration where
  | ms (n : Nat)
  | infinity
deriving DecidableEq, Repr

/-- `refetchOnMount` values used in the sources: the booleans and the
string `"always"`. -/
inductive RefetchMount where
  | no
  | whenStale
  | always
deriving DecidableEq, Repr

/-- Default query options of the `QueryClient` (`main.tsx`). -/
structure QueryDefaults where
  staleTime : JsDuration
  gcTime : Nat
  retry : Nat
  refetchOnWindowFocus : Bool
  refetchOnReconnect : Bool
  refetchOnMount : RefetchMount
deriving DecidableEq, Repr

/-- Default mutation options of the `QueryClient` (`main.tsx`). -/
structure MutationDefaults where
  retry : Nat
deriving DecidableEq, Repr

/-- Options a query hook passes to `useQuery`; `none` fields are left to
the query-client defaults.  `retryDelay`, when set, is the constant delay
in milliseconds (no source sets a backoff function). -/
structure HookQueryConfig where
  staleTime : JsDuration
  gcTime : Nat
  retry : Nat
  retryDelay : Option Nat := none
  refetchOnMount : RefetchMount
  refetchOnWindowFocus : Option Bool := none
deriving DecidableEq, Repr

/-- `queries` defaults of the `QueryClient` in `main.tsx`. -/
def queryClientQueryDefaults : QueryDefaults where
  staleTime := .infinity
  gcTime := 60 * 60 * 1000
  retry := 1
  refetchOnWindowFocus := false
  refetchOnReconnect := false
  refetchOnMount := .whenStale

/-- `mutations` defaults of the `QueryClient` in `main.tsx`. -/
def queryClientMutationDefaults : MutationDefaults where
  retry := 0

/-- Query options of `useSearchRecipes` (`useRecipes.ts`). -/
def useSearchRecipesConfig : HookQueryConfig where
  staleTime := .infinity
  gcTime := 5 * 60 * 1000
  retry := 1
  refetchOnMount := .whenStale

/-- Query options of `useFavouriteRecipes` (`useRecipes.ts`). -/
def useFavouriteRecipesConfig : HookQueryConfig where
  staleTime := .infinity
  gcTime := 5 * 60 * 1000
  retry := 1
  refetchOnMount := .whenStale

/-- Query options of `useRecipeSummary` (`useRecipes.ts`). -/
def useRecipeSummaryConfig : HookQueryConfig where
  staleTime := .infinity
  gcTime := 5 * 60 * 1000
  retry := 1
  refetchOnMount := .whenStale

/-- Query options of `useWeatherSuggestions`
(`useWeatherSuggestions.ts`). -/
def useWeatherSuggestionsConfig : HookQueryConfig where
  staleTime := .ms (5 * 60 * 1000)
  gcTime := 10 * 60 * 1000
  retry := 2
  retryDelay := some 1000
  refetchOnMount := .always
  refetchOnWindowFocus := some true

/-! ## String utilities (`utils/stringUtils.ts`) -/

/-- The `\w` character class of the regex `/\b\w/g` (no Unicode flag):
ASCII letters, digits and underscore. -/
def isWordChar (c : Char) : Bool :=
  (97 ≤ c.toNat && c.toNat ≤ 122) || (65 ≤ c.toNat && c.toNat ≤ 90) ||
  (48 ≤ c.toNat && c.toNat ≤ 57) || c.toNat == 95

/-- `String.prototype.toUpperCase` restricted to a single character; the
handler only ever applies it to `\w` matches, which are ASCII. -/
def jsToUpper (c : Char) : Char :=
  if 97 ≤ c.toNat && c.toNat ≤ 122 then Char.ofNat (c.toNat - 32) else c

/-- One left-to-right pass of `str.replace(/\b\w/g, ch => ch.toUpperCase())`:
a word character is uppercased exactly when the previous character (tracked
by the boolean state, `false` at the start of the string) is not a word
character, i.e. when a `\b` boundary precedes it. -/
def capWordsAux : Bool → List Char → List Char
  | _, [] => []
  | prevWord, c :: cs =>
      (if isWordChar c && !prevWord then jsToUpper c else c)
        :: capWordsAux (isWordChar c) cs

/-- `capitalizeWords` from `utils/stringUtils.ts`: `undefined` and the
empty string (both falsy) map to `""`; otherwise each `\b\w` match is
uppercased. -/
def capitalizeWords (str : Option String) : String :=
  match str with
  | none => ""
  | some s => if s = "" then "" else ⟨capWordsAux false s.toList⟩

/-! ## Supporting lemmas -/

/-- `runCall` always records exactly the one call it ran. -/
theorem runCall_snd {κ α : Type} (lbl : String) (c : κ)
    (up : κ → UpstreamResult α) : (runCall lbl c up).2 = [c] := by
  unfold runCall
  cases up c <;> rfl

/-- `Char.ofNat` round-trips on small codepoints. -/
theorem toNat_ofNat_small : ∀ n, n < 128 → (Char.ofNat n).toNat = n := by
  decide

/-- Uppercasing does not change membership in the `\w` class. -/
theorem isWordChar_jsToUpper (c : Char) :
    isWordChar (jsToUpper c) = isWordChar c := by
  unfold jsToUpper isWordChar
  rcases Nat.lt_or_ge c.toNat 97 with h1 | h1
  · have h : ¬ (97 ≤ c.toNat) := by omega
    simp [h]
  · rcases Nat.lt_or_ge 122 c.toNat with h2 | h2
    · have h : ¬ (c.toNat ≤ 122) := by omega
      simp [h]
    · have hv : (Char.ofNat (c.toNat - 32)).toNat = c.toNat - 32 :=
        toNat_ofNat_small _ (by omega)
      have hif : (decide (97 ≤ c.toNat) && decide (c.toNat ≤ 122)) = true := by
        simp [h1, h2]
      rw [if_pos hif, Bool.eq_iff_iff]
      simp only [hv, Bool.or_eq_true, Bool.and_eq_true, decide_eq_true_eq,
        beq_iff_eq]
      omega

/-- `jsToUpper` is idempotent. -/
theorem jsToUpper_jsToUpper (c : Char) :
    jsToUpper (jsToUpper c) = jsToUpper c := by
  unfold jsToUpper
  rcases Nat.lt_or_ge c.toNat 97 with h1 | h1
  · have h : ¬ (97 ≤ c.toNat) := by omega
    simp [h]
  · rcases Nat.lt_or_ge 122 c.toNat with h2 | h2
    · have h : ¬ (c.toNat ≤ 122) := by omega
      simp [h]
    · have hv : (Char.ofNat (c.toNat - 32)).toNat = c.toNat - 32 :=
        toNat_ofNat_small _ (by omega)
      have hif : (decide (97 ≤ c.toNat) && decide (c.toNat ≤ 122)) = true := by
        simp [h1, h2]
      rw [if_pos hif]
      have h3 : ¬ (97 ≤ (Char.ofNat (c.toNat - 32)).toNat) := by omega
      simp [h3]

/-- The capitalisation pass is idempotent when restarted in the same
boundary state. -/
theorem capWordsAux_idem : ∀ (b : Bool) (cs : List Char),
    capWordsAux b (capWordsAux b cs) = capWordsAux b cs
  | _, [] => rfl
  | b, c :: cs => by
    by_cases h : (isWordChar c && !b) = true
    · have e1 : capWordsAux b (c :: cs)
          = jsToUpper c :: capWordsAux (isWordChar c) cs := by
        simp [capWordsAux, h]
      rw [e1]
      have e2 : capWordsAux b (jsToUpper c :: capWordsAux (isWordChar c) cs)
          = jsToUpper (jsToUpper c) ::
              capWordsAux (isWordChar (jsToUpper c))
                (capWordsAux (isWordChar c) cs) := by
        simp [capWordsAux, isWordChar_jsToUpper, h]
      rw [e2, jsToUpper_jsToUpper, isWordChar_jsToUpper,
        capWordsAux_idem (isWordChar c) cs]
    · have e1 : capWordsAux b (c :: cs)
          = c :: capWordsAux (isWordChar c) cs := by
        simp [capWordsAux, h]
      rw [e1]
      have e2 : capWordsAux b (c :: capWordsAux (isWordChar c) cs)
          = c :: capWordsAux (isWordChar c)
              (capWordsAux (isWordChar c) cs) := by
        simp [capWordsAux, h]
      rw [e2, capWordsAux_idem (isWordChar c) cs]

/-! ## Claim theorems -/

/-- C8: the client cache layer uses fixed retry counts only: the
query-client default retry is 1, `useSearchRecipes`, `useFavouriteRecipes`
and `useRecipeSummary` each set retry 1, `useWeatherSuggestions` sets
retry 2 with a constant 1000 ms `retryDelay`, mutations are configured
with retry 0, and no hook installs any other (in particular no
exponential) `retryDelay`. -/
theorem c8_fixed_retry_configuration :
    queryClientQueryDefaults.retry = 1 ∧
    useSearchRecipesConfig.retry = 1 ∧
    useFavouriteRecipesConfig.retry = 1 ∧
    useRecipeSummaryConfig.retry = 1 ∧
    useWeatherSuggestionsConfig.retry = 2 ∧
    useWeatherSuggestionsConfig.retryDelay = some 1000 ∧
    useSearchRecipesConfig.retryDelay = none ∧
    useFavouriteRecipesConfig.retryDelay = none ∧
    useRecipeSummaryConfig.retryDelay = none ∧
    queryClientMutationDefaults.retry = 0 :=
  ⟨rfl, rfl, rfl, rfl, rfl, rfl, rfl, rfl, rfl, rfl⟩

/-- C10: `capitalizeWords` is idempotent and total on optional strings:
applying it twice equals applying it once, and both `undefined` and the
empty string map to `""`. -/
theorem c10_capitalizeWords_idempotent :
    (∀ s : String,
      capitalizeWords (some (capitalizeWords (some s)))
        = capitalizeWords (some s))
    ∧ capitalizeWords none = "" ∧ capitalizeWords (some "") = "" := by
  refine ⟨fun s => ?_, rfl, rfl⟩
  by_cases hs : s = ""
  · subst hs; rfl
  · have hl : s.toList ≠ [] := by
      intro h
      exact hs (String.ext (h.trans rfl))
    simp only [capitalizeWords, if_neg hs]
    cases hd : s.toList with
    | nil => exact absurd hd hl
    | cons c cs =>
        have hkey : capWordsAux false (c :: cs)
            = (if isWordChar c && !false then jsToUpper c else c)
              :: capWordsAux (isWordChar c) cs := rfl
        have hne : (⟨capWordsAux false (c :: cs)⟩ : String) ≠ "" := by
          intro h
          have h2 := congrArg String.data h
          rw [show (⟨capWordsAux false (c :: cs)⟩ : String).data
              = capWordsAux false (c :: cs) from rfl, hkey] at h2
          simp at h2
        rw [if_neg hne]
        have hmk : (⟨capWordsAux false (c :: cs)⟩ : String).toList
            = capWordsAux false (c :: cs) := rfl
        rw [hmk, capWordsAux_idem]

/-- C1 counterexample: a POST to the recipe-detail handler with a
non-digit recipeId is answered with the 400 recipeId-validation error, not
with 405, because the recipeId check runs before the method check. -/
theorem c1_counterexample :
    (recipeHandler (α := Unit)
        ⟨"POST", ⟨some "abc", some ["information"], none, none, none, none⟩⟩
        (fun _ => .ok ())).1.status = 400
    ∧ (recipeHandler (α := Unit)
        ⟨"POST", ⟨some "abc", some ["information"], none, none, none, none⟩⟩
        (fun _ => .ok ())).1.status ≠ 405 := by
  exact ⟨by decide, by decide⟩

/-- C1 (amended): a non-GET, non-preflight request to the food/wine
handler is always answered 405 `{"error": "Method not allowed"}` with no
upstream call; the recipe-detail handler answers the same provided the
recipeId passes its digit validation (which runs first and otherwise
answers 400). -/
theorem c1_method_not_allowed :
    (∀ (α : Type) (req : WineRequest) (up : WineCall → UpstreamResult α),
      req.method ≠ "GET" → req.method ≠ "OPTIONS" →
      wineHandler req up = (⟨405, .errObj "Method not allowed"⟩, []))
    ∧ (∀ (α : Type) (req : RecipeRequest) (up : RecipeCall → UpstreamResult α),
      req.method ≠ "GET" → req.method ≠ "OPTIONS" →
      isDigitString (req.query.recipeId.getD "") = true →
      recipeHandler req up = (⟨405, .errObj "Method not allowed"⟩, [])) := by
  constructor
  · intro α req up h1 h2
    simp [wineHandler, wineRoute, isPreflight, h1, h2]
  · intro α req up h1 h2 h3
    simp [recipeHandler, recipeRoute, isPreflight, h1, h2, h3]

/-- Witness for C1 (amended) at concrete non-GET requests. -/
theorem c1_witness :
    wineHandler (α := Unit)
        ⟨"POST", ⟨some ["pairing"], none, some "steak", none⟩⟩
        (fun _ => .ok ())
      = (⟨405, .errObj "Method not allowed"⟩, [])
    ∧ recipeHandler (α := Unit)
        ⟨"DELETE", ⟨some "123", some ["summary"], none, none, none, none⟩⟩
        (fun _ => .ok ())
      = (⟨405, .errObj "Method not allowed"⟩, []) :=
  ⟨c1_method_not_allowed.1 Unit _ _ (by decide) (by decide),
   c1_method_not_allowed.2 Unit _ _ (by decide) (by decide) (by decide)⟩

/-- C2: whenever the wrapped upstream call of either handler throws, the
response status is 402 exactly when the thrown message contains `"limit"`
or `"402"` and 500 otherwise, and the body is the handler's
`{ error, message }` object carrying the thrown message. -/
theorem c2_upstream_throw_statuses :
    (∀ (α : Type) (req : WineRequest) (up : WineCall → UpstreamResult α)
        (c : WineCall) (msg : String),
      (wineHandler req up).2 = [c] → up c = .thrown msg →
      (wineHandler req up).1 =
        ⟨if occursIn "limit" msg || occursIn "402" msg then 402 else 500,
         .errMsgObj "Failed to process request" msg⟩)
    ∧ (∀ (α : Type) (req : RecipeRequest) (up : RecipeCall → UpstreamResult α)
        (c : RecipeCall) (msg : String),
      (recipeHandler req up).2 = [c] → up c = .thrown msg →
      (recipeHandler req up).1 =
        ⟨if occursIn "limit" msg || occursIn "402" msg then 402 else 500,
         .errMsgObj "Failed to fetch recipe data" msg⟩) := by
  constructor
  · intro α req up c msg hc hmsg
    unfold wineHandler at hc ⊢
    cases hr : wineRoute (α := α) req with
    | reply r =>
        rw [hr] at hc
        have hnil : ([] : List WineCall) = [c] := hc
        exact absurd hnil (by simp)
    | call c0 =>
        rw [hr] at hc
        have hc1 : (runCall "Failed to process request" c0 up).2 = [c] := hc
        have hc2 : [c0] = [c] :=
          (runCall_snd "Failed to process request" c0 up).symm.trans hc1
        have hc0 : c0 = c := by
          injection hc2
        subst hc0
        show (runCall "Failed to process request" c0 up).1 = _
        unfold runCall
        rw [hmsg]
  · intro α req up c msg hc hmsg
    unfold recipeHandler at hc ⊢
    cases hr : recipeRoute (α := α) req with
    | reply r =>
        rw [hr] at hc
        have hnil : ([] : List RecipeCall) = [c] := hc
        exact absurd hnil (by simp)
    | call c0 =>
        rw [hr] at hc
        have hc1 : (runCall "Failed to fetch recipe data" c0 up).2 = [c] := hc
        have hc2 : [c0] = [c] :=
          (runCall_snd "Failed to fetch recipe data" c0 up).symm.trans hc1
        have hc0 : c0 = c := by
          injection hc2
        subst hc0
        show (runCall "Failed to fetch recipe data" c0 up).1 = _
        unfold runCall
        rw [hmsg]

/-- Witness for C2 at a throwing rate-limit upstream and a throwing
generic upstream. -/
theorem c2_witness :
    (wineHandler (α := Unit)
        ⟨"GET", ⟨some ["dishes"], some "merlot", none, none⟩⟩
        (fun _ => .thrown "API rate limit exceeded")).1
      = ⟨402, .errMsgObj "Failed to process request" "API rate limit exceeded"⟩
    ∧ (recipeHandler (α := Unit)
        ⟨"GET", ⟨some "1", some ["summary"], none, none, none, none⟩⟩
        (fun _ => .thrown "boom")).1
      = ⟨500, .errMsgObj "Failed to fetch recipe data" "boom"⟩ := by
  constructor
  · exact (c2_upstream_throw_statuses.1 Unit _ _ (.dishPairing "merlot")
      "API rate limit exceeded" (by decide) rfl).trans (by decide)
  · exact (c2_upstream_throw_statuses.2 Unit _ _ (.summary "1")
      "boom" (by decide) rfl).trans (by decide)

/-- C9 counterexample: an OPTIONS request with a non-digit recipeId is
answered by the modelled CORS-preflight branch with status 200, not by the
400 recipeId validation. -/
theorem c9_counterexample :
    (recipeHandler (α := Unit)
        ⟨"OPTIONS", ⟨some "abc", some ["information"], none, none, none, none⟩⟩
        (fun _ => .ok ())).1.status = 200
    ∧ (recipeHandler (α := Unit)
        ⟨"OPTIONS", ⟨some "abc", some ["information"], none, none, none, none⟩⟩
        (fun _ => .ok ())).1.status ≠ 400 := by
  exact ⟨by decide, by decide⟩

/-- C9 (amended): every request to the recipe-detail handler whose method
is not OPTIONS (the modelled CORS preflight) and whose recipeId is absent,
empty or not digit-only is answered 400
`{"error": "Valid recipe ID is required"}` with no upstream call; the
validation runs before the method check, so this holds for non-GET methods
as well. -/
theorem c9_recipeId_validated_before_method :
    ∀ (α : Type) (req : RecipeRequest) (up : RecipeCall → UpstreamResult α),
      req.method ≠ "OPTIONS" →
      isDigitString (req.query.recipeId.getD "") = false →
      recipeHandler req up = (⟨400, .errObj "Valid recipe ID is required"⟩, []) := by
  intro α req up h1 h2
  simp [recipeHandler, recipeRoute, isPreflight, h1, h2]

/-- Witness for C9 (amended) at a concrete PUT request with a malformed
recipeId. -/
theorem c9_witness :
    recipeHandler (α := Unit)
        ⟨"PUT", ⟨some "12a", some ["similar"], none, none, none, none⟩⟩
        (fun _ => .ok ())
      = (⟨400, .errObj "Valid recipe ID is required"⟩, []) :=
  c9_recipeId_validated_before_method Unit _ _ (by decide) (by decide)

/-- C4: a GET to the food/wine `pairing` route whose food parameter is
absent, empty or whitespace-only is answered 400
`{"error": "Food name is required"}` with no upstream call, and a GET to
the `dishes` route with an absent or whitespace-only wine parameter is
answered 400 `{"error": "Wine type is required"}` with no upstream
call. -/
theorem c4_missing_food_or_wine_400 :
    (∀ (α : Type) (req : WineRequest) (up : WineCall → UpstreamResult α),
      req.method = "GET" →
      (req.query.action.getD []).head? = some "pairing" →
      jsTrim (req.query.food.getD "") = "" →
      wineHandler req up = (⟨400, .errObj "Food name is required"⟩, []))
    ∧ (∀ (α : Type) (req : WineRequest) (up : WineCall → UpstreamResult α),
      req.method = "GET" →
      (req.query.action.getD []).head? = some "dishes" →
      jsTrim (req.query.wine.getD "") = "" →
      wineHandler req up = (⟨400, .errObj "Wine type is required"⟩, [])) := by
  constructor
  · intro α req up h1 h2 h3
    cases hf : req.query.food with
    | none => simp [wineHandler, wineRoute, isPreflight, h1, h2, hf]
    | some f =>
        rw [hf] at h3
        simp only [Option.getD_some] at h3
        simp [wineHandler, wineRoute, isPreflight, h1, h2, hf, h3]
  · intro α req up h1 h2 h3
    cases hw : req.query.wine with
    | none => simp [wineHandler, wineRoute, isPreflight, h1, h2, hw]
    | some w =>
        rw [hw] at h3
        simp only [Option.getD_some] at h3
        simp [wineHandler, wineRoute, isPreflight, h1, h2, hw, h3]

/-- Witness for C4 at a whitespace-only food parameter and an absent wine
parameter. -/
theorem c4_witness :
    wineHandler (α := Unit)
        ⟨"GET", ⟨some ["pairing"], none, some "   ", none⟩⟩ (fun _ => .ok ())
      = (⟨400, .errObj "Food name is required"⟩, [])
    ∧ wineHandler (α := Unit)
        ⟨"GET", ⟨some ["dishes"], none, none, none⟩⟩ (fun _ => .ok ())
      = (⟨400, .errObj "Wine type is required"⟩, []) :=
  ⟨c4_missing_food_or_wine_400.1 Unit _ _ (by decide) (by decide) (by decide),
   c4_missing_food_or_wine_400.2 Unit _ _ (by decide) (by decide) (by decide)⟩

/-- C5 counterexample: a GET to the recipe-detail handler with an unknown
action but a malformed recipeId is answered by the 400 recipeId
validation, not 404. -/
theorem c5_counterexample :
    (recipeHandler (α := Unit)
        ⟨"GET", ⟨some "abc", some ["bogus"], none, none, none, none⟩⟩
        (fun _ => .ok ())).1.status = 400
    ∧ (recipeHandler (α := Unit)
        ⟨"GET", ⟨some "abc", some ["bogus"], none, none, none, none⟩⟩
        (fun _ => .ok ())).1.status ≠ 404 := by
  exact ⟨by decide, by decide⟩

/-- C5 (amended): a GET whose first catch-all segment is not a handled
action is answered 404 `{"error": "Not found"}` with no upstream call —
unconditionally for the food/wine handler, and provided the recipeId
passes the digit validation (which otherwise answers 400 first) for the
recipe-detail handler. -/
theorem c5_unknown_action_404 :
    (∀ (α : Type) (req : WineRequest) (up : WineCall → UpstreamResult α),
      req.method = "GET" →
      (req.query.action.getD []).head? ≠ some "dishes" →
      (req.query.action.getD []).head? ≠ some "pairing" →
      wineHandler req up = (⟨404, .errObj "Not found"⟩, []))
    ∧ (∀ (α : Type) (req : RecipeRequest) (up : RecipeCall → UpstreamResult α),
      req.method = "GET" →
      isDigitString (req.query.recipeId.getD "") = true →
      (req.query.action.getD []).head? ≠ some "information" →
      (req.query.action.getD []).head? ≠ some "similar" →
      (req.query.action.getD []).head? ≠ some "summary" →
      recipeHandler req up = (⟨404, .errObj "Not found"⟩, [])) := by
  constructor
  · intro α req up h1 h2 h3
    simp [wineHandler, wineRoute, isPreflight, h1, h2, h3]
  · intro α req up h1 h2 h3 h4 h5
    simp [recipeHandler, recipeRoute, isPreflight, h1, h2, h3, h4, h5]

/-- Witness for C5 at unknown actions on both handlers. -/
theorem c5_witness :
    wineHandler (α := Unit)
        ⟨"GET", ⟨some ["cheese"], none, none, none⟩⟩ (fun _ => .ok ())
      = (⟨404, .errObj "Not found"⟩, [])
    ∧ recipeHandler (α := Unit)
        ⟨"GET", ⟨some "7", some ["nutrition"], none, none, none, none⟩⟩
        (fun _ => .ok ())
      = (⟨404, .errObj "Not found"⟩, []) :=
  ⟨c5_unknown_action_404.1 Unit _ _ (by decide) (by decide) (by decide),
   c5_unknown_action_404.2 Unit _ _ (by decide) (by decide) (by decide)
     (by decide) (by decide)⟩

/-- C6 counterexample: a present-but-empty maxPrice parameter is falsy in
the JavaScript ternary, so although `parseFloat("")` is NaN the handler
does not answer 400; it forwards `undefined` and (with a succeeding
upstream) answers 200. -/
theorem c6_counterexample :
    wineHandler (α := Unit)
        ⟨"GET", ⟨some ["pairing"], none, some "steak", some ""⟩⟩
        (fun _ => .ok ())
      = (⟨200, .ok ()⟩, [.winePairing "steak" none])
    ∧ (wineHandler (α := Unit)
        ⟨"GET", ⟨some ["pairing"], none, some "steak", some ""⟩⟩
        (fun _ => .ok ())).1.status ≠ 400
    ∧ parseFloatJS "" = .nan := by
  exact ⟨by decide, by decide, by decide⟩

/-- C6 (amended): on the pairing route with a valid food parameter, a
present non-empty maxPrice whose `parseFloat` is NaN or negative is
answered 400 `{"error": "maxPrice must be a positive number"}` with no
upstream call; an absent or empty maxPrice is forwarded to
`getWinePairing` as `undefined`; any other parsed value (0 included) is
forwarded as parsed. -/
theorem c6_maxPrice_validation :
    ∀ (α : Type) (req : WineRequest) (up : WineCall → UpstreamResult α)
      (f : String),
      req.method = "GET" →
      (req.query.action.getD []).head? = some "pairing" →
      req.query.food = some f →
      jsTrim f ≠ "" →
      ((∀ s, req.query.maxPrice = some s → s ≠ "" →
          (jsIsNaN (parseFloatJS s) || jsLtZero (parseFloatJS s)) = true →
          wineHandler req up
            = (⟨400, .errObj "maxPrice must be a positive number"⟩, []))
       ∧ (req.query.maxPrice = none ∨ req.query.maxPrice = some "" →
          (wineHandler req up).2 = [.winePairing f none])
       ∧ (∀ s, req.query.maxPrice = some s → s ≠ "" →
          (jsIsNaN (parseFloatJS s) || jsLtZero (parseFloatJS s)) = false →
          (wineHandler req up).2 = [.winePairing f (some (parseFloatJS s))])) := by
  intro α req up f h1 h2 hf htrim
  refine ⟨?_, ?_, ?_⟩
  · intro s hs hne hbad
    simp [wineHandler, wineRoute, isPreflight, resolveMaxPrice, h1, h2, hf,
      htrim, hs, hne, hbad]
  · intro hmp
    rcases hmp with hmp | hmp <;>
      simp [wineHandler, wineRoute, isPreflight, resolveMaxPrice, runCall_snd,
        h1, h2, hf, htrim, hmp]
  · intro s hs hne hgood
    simp [wineHandler, wineRoute, isPreflight, resolveMaxPrice, runCall_snd,
      h1, h2, hf, htrim, hs, hne, hgood]

/-- Witness for C6 at a negative, an absent and a zero maxPrice. -/
theorem c6_witness :
    wineHandler (α := Unit)
        ⟨"GET", ⟨some ["pairing"], none, some "steak", some "-1"⟩⟩
        (fun _ => .ok ())
      = (⟨400, .errObj "maxPrice must be a positive number"⟩, [])
    ∧ (wineHandler (α := Unit)
        ⟨"GET", ⟨some ["pairing"], none, some "steak", none⟩⟩
        (fun _ => .ok ())).2 = [.winePairing "steak" none]
    ∧ (wineHandler (α := Unit)
        ⟨"GET", ⟨some ["pairing"], none, some "steak", some "0"⟩⟩
        (fun _ => .ok ())).2
      = [.winePairing "steak" (some (parseFloatJS "0"))] :=
  ⟨(c6_maxPrice_validation Unit _ _ "steak" (by decide) (by decide) rfl
      (by decide)).1 "-1" rfl (by decide) (by decide),
   (c6_maxPrice_validation Unit _ _ "steak" (by decide) (by decide) rfl
      (by decide)).2.1 (Or.inl rfl),
   (c6_maxPrice_validation Unit _ _ "steak" (by decide) (by decide) rfl
      (by decide)).2.2 "0" rfl (by decide) (by decide)⟩

/-- C7 counterexample: a present-but-empty number parameter is falsy in
the JavaScript ternary, so although `parseInt("", 10)` is NaN the handler
does not answer 400; it uses the default 10 and (with a succeeding
upstream) answers 200. -/
theorem c7_counterexample :
    recipeHandler (α := Unit)
        ⟨"GET", ⟨some "1", some ["similar"], none, none, none, some ""⟩⟩
        (fun _ => .ok ())
      = (⟨200, .ok ()⟩, [.similar "1" 10])
    ∧ (recipeHandler (α := Unit)
        ⟨"GET", ⟨some "1", some ["similar"], none, none, none, some ""⟩⟩
        (fun _ => .ok ())).1.status ≠ 400
    ∧ parseIntJS "" = none := by
  exact ⟨by decide, by decide, by decide⟩

/-- C7 (amended): on the similar route with a digit-only recipeId, an
absent or empty number parameter defaults to 10; a present non-empty one
is parsed with `parseInt` base 10 and answered 400
`{"error": "Number must be between 1 and 100"}` with no upstream call
when the parse is NaN or out of the range 1..100, and forwarded to
`getSimilarRecipes` otherwise. -/
theorem c7_number_validation :
    ∀ (α : Type) (req : RecipeRequest) (up : RecipeCall → UpstreamResult α),
      req.method = "GET" →
      isDigitString (req.query.recipeId.getD "") = true →
      (req.query.action.getD []).head? = some "similar" →
      ((req.query.number = none ∨ req.query.number = some "" →
          (recipeHandler req up).2 = [.similar (req.query.recipeId.getD "") 10])
       ∧ (∀ s, req.query.number = some s → s ≠ "" → parseIntJS s = none →
          recipeHandler req up
            = (⟨400, .errObj "Number must be between 1 and 100"⟩, []))
       ∧ (∀ s n, req.query.number = some s → s ≠ "" → parseIntJS s = some n →
          (n < 1 ∨ 100 < n) →
          recipeHandler req up
            = (⟨400, .errObj "Number must be between 1 and 100"⟩, []))
       ∧ (∀ s n, req.query.number = some s → s ≠ "" → parseIntJS s = some n →
          1 ≤ n → n ≤ 100 →
          (recipeHandler req up).2
            = [.similar (req.query.recipeId.getD "") n])) := by
  intro α req up h1 h2 h3
  refine ⟨?_, ?_, ?_, ?_⟩
  · intro hn
    rcases hn with hn | hn <;>
      simp [recipeHandler, recipeRoute, isPreflight, resolveNumber,
        runCall_snd, h1, h2, h3, hn]
  · intro s hs hne hnan
    simp [recipeHandler, recipeRoute, isPreflight, resolveNumber, h1, h2, h3,
      hs, hne, hnan]
  · intro s n hs hne hn hout
    have hcond : (decide (n < 1) || decide (n > 100)) = true := by
      rcases hout with h | h <;> simp [h]
    simp [recipeHandler, recipeRoute, isPreflight, resolveNumber, h1, h2, h3,
      hs, hne, hn, hcond]
  · intro s n hs hne hn hlo hhi
    have hc1 : ¬ (n < 1) := by omega
    have hc2 : ¬ (n > 100) := by omega
    simp [recipeHandler, recipeRoute, isPreflight, resolveNumber, runCall_snd,
      h1, h2, h3, hs, hne, hn, hc1, hc2]

/-- Witness for C7 at an absent number, an unparsable number and a valid
number. -/
theorem c7_witness :
    (recipeHandler (α := Unit)
        ⟨"GET", ⟨some "5", some ["similar"], none, none, none, none⟩⟩
        (fun _ => .ok ())).2 = [.similar "5" 10]
    ∧ recipeHandler (α := Unit)
        ⟨"GET", ⟨some "5", some ["similar"], none, none, none, some "abc"⟩⟩
        (fun _ => .ok ())
      = (⟨400, .errObj "Number must be between 1 and 100"⟩, [])
    ∧ recipeHandler (α := Unit)
        ⟨"GET", ⟨some "5", some ["similar"], none, none, none, some "101"⟩⟩
        (fun _ => .ok ())
      = (⟨400, .errObj "Number must be between 1 and 100"⟩, [])
    ∧ (recipeHandler (α := Unit)
        ⟨"GET", ⟨some "5", some ["similar"], none, none, none, some "42"⟩⟩
        (fun _ => .ok ())).2 = [.similar "5" 42] :=
  ⟨(c7_number_validation Unit _ _ (by decide) (by decide) (by decide)).1
      (Or.inl rfl),
   (c7_number_validation Unit _ _ (by decide) (by decide) (by decide)).2.1
      "abc" rfl (by decide) (by decide),
   (c7_number_validation Unit _ _ (by decide) (by decide) (by decide)).2.2.1
      "101" 101 rfl (by decide) (by decide) (by decide),
   (c7_number_validation Unit _ _ (by decide) (by decide) (by decide)).2.2.2
      "42" 42 rfl (by decide) (by decide) (by decide) (by decide)⟩

/-- C3 counterexample: on the `similar` segment a GET with a digit-only
recipeId is not always answered 200 with the upstream result — a number
parameter outside 1..100 is answered 400 before any upstream call. -/
theorem c3_counterexample :
    recipeHandler (α := Unit)
        ⟨"GET", ⟨some "1", some ["similar"], none, none, none, some "0"⟩⟩
        (fun _ => .ok ())
      = (⟨400, .errObj "Number must be between 1 and 100"⟩, [])
    ∧ (recipeHandler (α := Unit)
        ⟨"GET", ⟨some "1", some ["similar"], none, none, none, some "0"⟩⟩
        (fun _ => .ok ())).1.status ≠ 200 := by
  exact ⟨by decide, by decide⟩

/-- C3 (amended): a GET to the recipe-detail handler with a digit-only
recipeId dispatches solely on the first catch-all segment: `information`
is answered 200 with `getRecipeInformation(recipeId, options)` (each
option true exactly when the matching query parameter is the string
`"true"`), `similar` — provided its number parameter resolves to a value
in 1..100 — with `getSimilarRecipes(recipeId, number)`, and `summary`
with `getRecipeSummary(recipeId)`, in each case when the upstream call
returns; segments after the first do not affect the dispatch. -/
theorem c3_dispatch_on_first_segment :
    ∀ (α : Type) (req : RecipeRequest) (up : RecipeCall → UpstreamResult α)
      (v : α),
      req.method = "GET" →
      isDigitString (req.query.recipeId.getD "") = true →
      (((req.query.action.getD []).head? = some "information" →
        up (.information (req.query.recipeId.getD "")
            (req.query.includeNutrition == some "true")
            (req.query.addWinePairing == some "true")
            (req.query.addTasteData == some "true")) = .ok v →
        recipeHandler req up = (⟨200, .ok v⟩,
          [.information (req.query.recipeId.getD "")
            (req.query.includeNutrition == some "true")
            (req.query.addWinePairing == some "true")
            (req.query.addTasteData == some "true")]))
      ∧ ((req.query.action.getD []).head? = some "similar" →
        ∀ n, resolveNumber req.query.number = some n → 1 ≤ n → n ≤ 100 →
        up (.similar (req.query.recipeId.getD "") n) = .ok v →
        recipeHandler req up
          = (⟨200, .ok v⟩, [.similar (req.query.recipeId.getD "") n]))
      ∧ ((req.query.action.getD []).head? = some "summary" →
        up (.summary (req.query.recipeId.getD "")) = .ok v →
        recipeHandler req up
          = (⟨200, .ok v⟩, [.summary (req.query.recipeId.getD "")]))
      ∧ (∀ (a : String) (rest rest' : List String),
        recipeHandler ⟨req.method, { req.query with action := some (a :: rest) }⟩ up
          = recipeHandler ⟨req.method, { req.query with action := some (a :: rest') }⟩ up)) := by
  intro α req up v h1 h2
  refine ⟨?_, ?_, ?_, ?_⟩
  · intro h3 hup
    simp [recipeHandler, recipeRoute, isPreflight, runCall, h1, h2, h3, hup]
  · intro h3 n hn hlo hhi hup
    have hc1 : ¬ (n < 1) := by omega
    have hc2 : ¬ (n > 100) := by omega
    simp [recipeHandler, recipeRoute, isPreflight, runCall, h1, h2, h3, hn,
      hc1, hc2, hup]
  · intro h3 hup
    simp [recipeHandler, recipeRoute, isPreflight, runCall, h1, h2, h3, hup]
  · intro a rest rest'
    simp only [recipeHandler, recipeRoute, Option.getD_some, List.head?_cons]

/-- Witness for C3 at concrete information, similar and summary requests
and at two action paths differing after the first segment. -/
theorem c3_witness :
    recipeHandler (α := Unit)
        ⟨"GET", ⟨some "9", some ["information"], some "true", none, some "false", none⟩⟩
        (fun _ => .ok ())
      = (⟨200, .ok ()⟩, [.information "9" true false false])
    ∧ recipeHandler (α := Unit)
        ⟨"GET", ⟨some "9", some ["similar"], none, none, none, some "3"⟩⟩
        (fun _ => .ok ())
      = (⟨200, .ok ()⟩, [.similar "9" 3])
    ∧ recipeHandler (α := Unit)
        ⟨"GET", ⟨some "9", some ["summary"], none, none, none, none⟩⟩
        (fun _ => .ok ())
      = (⟨200, .ok ()⟩, [.summary "9"])
    ∧ recipeHandler (α := Unit)
        ⟨"GET", ⟨some "9", some ["summary", "x"], none, none, none, none⟩⟩
        (fun _ => .ok ())
      = recipeHandler (α := Unit)
        ⟨"GET", ⟨some "9", some ["summary", "y", "z"], none, none, none, none⟩⟩
        (fun _ => .ok ()) :=
  ⟨(c3_dispatch_on_first_segment Unit _ _ () (by decide) (by decide)).1
      (by decide) (by decide),
   (c3_dispatch_on_first_segment Unit _ _ () (by decide) (by decide)).2.1
      (by decide) 3 (by decide) (by decide) (by decide) (by decide),
   (c3_dispatch_on_first_segment Unit _ _ () (by decide) (by decide)).2.2.1
      (by decide) (by decide),
   (c3_dispatch_on_first_segment Unit
      ⟨"GET", ⟨some "9", some ["ignored"], none, none, none, none⟩⟩
      (fun _ => .ok ()) () (by decide) (by decide)).2.2.2
      "summary" ["x"] ["y", "z"]⟩

end RecipeApp
